import Mathlib

/-
  Verification development for the Virtual Ecosystem Simulator.

  Shallow embedding of the core computational code:
    - ecosystem_model.py : two-species Lotka-Volterra model, environmental
      perturbation composer, integration drivers
    - multispecies.py    : N-species generalized model and its driver
    - utils.py           : trajectory metrics and cycle analysis

  Python floats are modelled as rationals; the scipy solver is modelled as an
  abstract function argument producing a SolverResult, since the drivers only
  forward its output; the numpy square root inside std is modelled as an
  abstract function argument, since no claim depends on its values.
-/

/-! ## Data model: two-species parameters and environmental events -/

/-- Parameter dictionary of the two-species model (ecosystem_model.py).
Keys alpha, beta, gamma, delta are always present; the key direct_mortality
is optional (absent unless a Disease event has written it), modelled as an
Option. -/
structure LVParams where
  alpha : ℚ
  beta : ℚ
  gamma : ℚ
  delta : ℚ
  direct_mortality : Option ℚ
deriving Repr, DecidableEq

/-- Environmental change event dictionary. The python dict key duration is
optional; an absent key and a non-positive value take the same branch in
lotka_volterra_with_env_change, so an absent duration is modelled as 0. -/
structure EnvChange where
  etype : String
  start_time : ℚ
  intensity : ℚ
  duration : ℚ
  affected_species : String
deriving Repr, DecidableEq

/-- Translation of apply_environmental_change (ecosystem_model.py lines
75-139): copies the base parameters and rescales the rates selected by the
event type and the affected species; Disease additionally accumulates a
direct_mortality term. -/
def apply_environmental_change (base_params : LVParams) (env_type : String)
    (intensity : ℚ) (affected_species : String) : LVParams :=
  let params := base_params
  let scale : ℚ := intensity / 100
  if env_type = "Temperature Increase" then
    let params :=
      if affected_species = "prey" ∨ affected_species = "both" then
        { params with
          alpha := base_params.alpha * (1 - scale * 0.3),
          beta := base_params.beta * (1 + scale * 0.2) }
      else params
    let params :=
      if affected_species = "predator" ∨ affected_species = "both" then
        { params with
          gamma := base_params.gamma * (1 + scale * 0.4),
          delta := base_params.delta * (1 - scale * 0.1) }
      else params
    params
  else if env_type = "Habitat Loss" then
    let params :=
      if affected_species = "prey" ∨ affected_species = "both" then
        { params with
          alpha := base_params.alpha * (1 - scale * 0.5),
          beta := base_params.beta * (1 + scale * 0.3) }
      else params
    let params :=
      if affected_species = "predator" ∨ affected_species = "both" then
        let params := { params with gamma := base_params.gamma * (1 + scale * 0.2) }
        if scale < 0.5 then
          { params with delta := base_params.delta * (1 + scale * 0.2) }
        else
          { params with delta := base_params.delta * (1 - (scale - 0.5) * 0.4) }
      else params
    params
  else if env_type = "Resource Depletion" then
    let params :=
      if affected_species = "prey" ∨ affected_species = "both" then
        { params with alpha := base_params.alpha * (1 - scale * 0.7) }
      else params
    let params :=
      if affected_species = "predator" ∨ affected_species = "both" then
        { params with delta := base_params.delta * (1 - scale * 0.3) }
      else params
    params
  else if env_type = "Disease" then
    if affected_species = "prey" then
      { params with
        alpha := base_params.alpha * (1 - scale * 0.4),
        direct_mortality :=
          some (base_params.direct_mortality.getD 0 + scale * 0.05) }
    else if affected_species = "predator" then
      { params with gamma := base_params.gamma * (1 + scale * 0.6) }
    else if affected_species = "both" then
      { params with
        alpha := base_params.alpha * (1 - scale * 0.3),
        gamma := base_params.gamma * (1 + scale * 0.4),
        direct_mortality :=
          some (base_params.direct_mortality.getD 0 + scale * 0.03) }
    else params
  else params

/-- Effective intensity of an event at time t (ecosystem_model.py lines
162-167): when the duration is positive the intensity ramps linearly,
capped at full intensity; otherwise the full intensity applies. The code
evaluates this only under the guard start_time ≤ t. -/
def effective_intensity (c : EnvChange) (t : ℚ) : ℚ :=
  if 0 < c.duration then
    c.intensity * min 1 ((t - c.start_time) / c.duration)
  else
    c.intensity

/-- Fold of the active environmental events over the base parameters
(ecosystem_model.py lines 156-175): events are applied strictly in list
order, each on the parameter set already modified by earlier events. -/
def lv_effective_params (t : ℚ) (base_params : LVParams)
    (env_changes : List EnvChange) : LVParams :=
  env_changes.foldl
    (fun current_params change =>
      if change.start_time ≤ t then
        apply_environmental_change current_params change.etype
          (effective_intensity change t) change.affected_species
      else current_params)
    base_params

/-- Translation of lotka_volterra_system (ecosystem_model.py lines 4-29). -/
def lotka_volterra_system (_t : ℚ) (y : List ℚ) (params : LVParams) : List ℚ :=
  let prey := y.getD 0 0
  let predator := y.getD 1 0
  let dPrey := params.alpha * prey - params.beta * prey * predator
  let dPredator := params.delta * prey * predator - params.gamma * predator
  [dPrey, dPredator]

/-- Translation of lotka_volterra_with_env_change (ecosystem_model.py lines
141-191): evaluates the standard equations at the folded effective
parameters, subtracting direct mortality when that key is present. -/
def lotka_volterra_with_env_change (t : ℚ) (y : List ℚ)
    (base_params : LVParams) (env_changes : List EnvChange) : List ℚ :=
  let prey := y.getD 0 0
  let predator := y.getD 1 0
  let current_params := lv_effective_params t base_params env_changes
  let dPrey := current_params.alpha * prey
      - current_params.beta * prey * predator
  let dPredator := current_params.delta * prey * predator
      - current_params.gamma * predator
  match current_params.direct_mortality with
  | some m => [dPrey - m * prey, dPredator - m * predator]
  | none => [dPrey, dPredator]

/-! ## Integration drivers

The scipy call solve_ivp is external code; the drivers are modelled as
functions of an abstract solver argument. A SolverResult carries the fields
the drivers read: the sample times t, the transposed value matrix yT (one
row per sample, mirroring solution.y.T), and the scipy success flag. -/

/-- Output record of the abstract ODE solver: the fields of the scipy
result object that the drivers read, plus the success flag they ignore. -/
structure SolverResult where
  t : List ℚ
  yT : List (List ℚ)
  success : Bool
deriving Repr, DecidableEq

/-- Shape of the scipy solve_ivp call as the drivers use it: right-hand
side, initial state, time span, and requested sample times. -/
abbrev Solver :=
  (ℚ → List ℚ → List ℚ) → List ℚ → (ℚ × ℚ) → List ℚ → SolverResult

/-- Projection of a solver result onto the pair every driver returns. -/
def SolverResult.traj (s : SolverResult) : List ℚ × List (List ℚ) :=
  (s.t, s.yT)

/-- Translation of numpy linspace as used for the report grid. -/
def linspace (a b : ℚ) (n : ℕ) : List ℚ :=
  (List.range n).map (fun i => a + (b - a) * i / ((n : ℚ) - 1))

/-- Translation of run_lotka_volterra (ecosystem_model.py lines 31-73): the
driver builds the parameter dictionary, calls the solver, and returns the
solver output unconditionally; no failure branch exists in the source, so
the Except error channel of the model is never used. -/
def run_lotka_volterra (solve : Solver)
    (prey_growth_rate prey_death_rate predator_death_rate
     predator_growth_rate initial_prey initial_predator time_span : ℚ) :
    Except String (List ℚ × List (List ℚ)) :=
  let params : LVParams :=
    { alpha := prey_growth_rate, beta := prey_death_rate,
      gamma := predator_death_rate, delta := predator_growth_rate,
      direct_mortality := none }
  let y0 := [initial_prey, initial_predator]
  let t_eval := linspace 0 time_span 1000
  let solution :=
    solve (fun t y => lotka_volterra_system t y params) y0 (0, time_span) t_eval
  Except.ok (solution.t, solution.yT)

/-- Translation of run_habitat_change_simulation (ecosystem_model.py lines
193-265). The random choice of the affected species for Disease events is
modelled as the explicit argument disease_choice; the events metadata list
returned for plotting is not modelled. As in the source, the solver output
is returned unconditionally. -/
def run_habitat_change_simulation (solve : Solver)
    (prey_growth_rate prey_death_rate predator_death_rate
     predator_growth_rate initial_prey initial_predator time_span : ℚ)
    (env_change_type : String) (env_change_start env_change_intensity : ℚ)
    (disease_choice : String) :
    Except String (List ℚ × List (List ℚ)) :=
  let base_params : LVParams :=
    { alpha := prey_growth_rate, beta := prey_death_rate,
      gamma := predator_death_rate, delta := predator_growth_rate,
      direct_mortality := none }
  let affected_species :=
    if env_change_type = "Disease" then disease_choice else "both"
  let env_changes : List EnvChange :=
    [{ etype := env_change_type, start_time := env_change_start,
       intensity := env_change_intensity, affected_species := affected_species,
       duration := 10 }]
  let y0 := [initial_prey, initial_predator]
  let t_eval := linspace 0 time_span 1000
  let solution :=
    solve (fun t y => lotka_volterra_with_env_change t y base_params env_changes)
      y0 (0, time_span) t_eval
  Except.ok (solution.t, solution.yT)

/-! ## N-species generalized model (multispecies.py) -/

/-- Parameter dictionary of the N-species model. The carrying_capacities
key is optional: multi_species_system substitutes an all-infinite list when
it is absent, so capacities are lists over WithTop ℚ with ⊤ as the
infinity sentinel. -/
structure MSParams where
  growth_rates : List ℚ
  interaction_matrix : List (List ℚ)
  carrying_capacities : Option (List (WithTop ℚ))
deriving Repr, DecidableEq

/-- Division of a float by a possibly infinite capacity: a finite value
divided by the float infinity sentinel is 0, which is what disables the
logistic term. -/
def capDiv (y : ℚ) : WithTop ℚ → ℚ
  | ⊤ => 0
  | (k : ℚ) => y / k

/-- Translation of multi_species_system (multispecies.py lines 5-37): for
each species an intrinsic logistic growth term plus interaction terms with
every other species, accumulated over all indices j distinct from i. -/
def multi_species_system (_t : ℚ) (y : List ℚ) (params : MSParams) : List ℚ :=
  let num_species := y.length
  let growth_rates := params.growth_rates
  let interaction_matrix := params.interaction_matrix
  let carrying_capacities :=
    params.carrying_capacities.getD (List.replicate num_species ⊤)
  (List.range num_species).map (fun i =>
    let base := growth_rates.getD i 0 * y.getD i 0
        * (1 - capDiv (y.getD i 0) (carrying_capacities.getD i ⊤))
    (List.range num_species).foldl
      (fun acc j =>
        if i ≠ j then
          acc + (interaction_matrix.getD i []).getD j 0 * y.getD i 0 * y.getD j 0
        else acc)
      base)

/-- Parameter dictionary that run_multi_species_simulation hands to the
derivative evaluator: the resolved finite capacities wrapped into the
optional-capacity form. -/
def msOdeParams (growth_rates : List ℚ) (interaction_matrix : List (List ℚ))
    (caps : List ℚ) : MSParams :=
  { growth_rates := growth_rates,
    interaction_matrix := interaction_matrix,
    carrying_capacities := some (caps.map (fun k => (k : WithTop ℚ))) }

/-- Translation of run_multi_species_simulation (multispecies.py lines
39-95): validates the configuration shape, substitutes the default carrying
capacities when none are supplied, then calls the solver and returns its
output unconditionally. The ValueError raises of the source are the error
branches. -/
def run_multi_species_simulation (solve : Solver)
    (species_names : List String) (growth_rates : List ℚ)
    (interaction_matrix : List (List ℚ)) (initial_populations : List ℚ)
    (carrying_capacities : Option (List ℚ)) (time_span : ℚ) :
    Except String (List ℚ × List (List ℚ)) :=
  let num_species := species_names.length
  let go : List ℚ → Except String (List ℚ × List (List ℚ)) := fun caps =>
    let params : MSParams := msOdeParams growth_rates interaction_matrix caps
    let y0 := initial_populations
    let t_eval := linspace 0 time_span 1000
    let solution :=
      solve (fun t y => multi_species_system t y params) y0 (0, time_span) t_eval
    Except.ok (solution.t, solution.yT)
  if growth_rates.length ≠ num_species then
    Except.error "Growth rates list must match number of species"
  else if interaction_matrix.length ≠ num_species
      ∨ interaction_matrix.any (fun row => decide (row.length ≠ num_species)) then
    Except.error "Interaction matrix must be square with dimensions matching number of species"
  else if initial_populations.length ≠ num_species then
    Except.error "Initial populations list must match number of species"
  else
    match carrying_capacities with
    | none => go (List.replicate num_species (1000 : ℚ))
    | some cc =>
      if cc.length ≠ num_species then
        Except.error "Carrying capacities list must match number of species"
      else go cc

/-! ## Metrics and cycle analysis (utils.py) -/

/-- Translation of the numpy mean reduction: on an empty array numpy yields
nan with a warning rather than raising; the code below never reads that
value because the min reduction raises first, so the empty case carries an
arbitrary 0. -/
def npMean (xs : List ℚ) : ℚ :=
  xs.sum / (xs.length : ℚ)

/-- Population variance as numpy std computes it before the square root:
mean of the squared deviations from the mean. -/
def npVariance (xs : List ℚ) : ℚ :=
  npMean (xs.map (fun x => (x - npMean xs) ^ 2))

/-- Translation of the numpy std reduction, parametric in the square root
function of the float library. -/
def npStd (sqrt : ℚ → ℚ) (xs : List ℚ) : ℚ :=
  sqrt (npVariance xs)

/-- Translation of the numpy min reduction on a nonempty array. -/
def npMin : List ℚ → ℚ
  | [] => 0
  | x :: rest => rest.foldl min x

/-- Translation of the numpy max reduction on a nonempty array. -/
def npMax : List ℚ → ℚ
  | [] => 0
  | x :: rest => rest.foldl max x

/-- Translation of the peak scan of calculate_ecosystem_metrics (utils.py
lines 116-120) for one series: the indices i of range(1, len-1) whose value
strictly exceeds both neighbours. -/
def peakIndices (xs : List ℚ) : List ℕ :=
  (List.range' 1 (xs.length - 1 - 1)).filter (fun i =>
    decide (xs.getD (i - 1) 0 < xs.getD i 0 ∧ xs.getD (i + 1) 0 < xs.getD i 0))

/-- Translation of the average peak interval computation (utils.py lines
126-134): mean gap between consecutive peak indices. The caller guards it
by a peak count of at least 2. -/
def avgPeakInterval (peak_indices : List ℕ) : ℚ :=
  ((peak_indices.zip peak_indices.tail).map
      (fun p => (p.2 : ℚ) - (p.1 : ℚ))).sum / ((peak_indices.length : ℚ) - 1)

/-- Metrics record returned by calculate_ecosystem_metrics. The stability
score lives in WithTop ℚ because the source returns the float infinity
when both coefficients of variation vanish. -/
structure Metrics where
  prey_mean : ℚ
  prey_std : ℚ
  prey_min : ℚ
  prey_max : ℚ
  prey_cv : ℚ
  predator_mean : ℚ
  predator_std : ℚ
  predator_min : ℚ
  predator_max : ℚ
  predator_cv : ℚ
  ecosystem_stability : WithTop ℚ
  final_prey : ℚ
  final_predator : ℚ
  prey_period : ℚ
  predator_period : ℚ
  phase_difference : ℕ
  prey_peaks_count : ℕ
  predator_peaks_count : ℕ
deriving Repr, DecidableEq

/-- Translation of calculate_ecosystem_metrics (utils.py lines 77-165),
parametric in the float square root used inside the std reductions. On an
empty trajectory the first numpy reduction with no identity raises a
ValueError, modelled by the error branch; every nonempty trajectory
produces a full record. The peak scan of the source iterates both columns
in one loop over the shared row count; it is expressed here as one scan per
column, which visits the same indices with the same comparisons. -/
def calculate_ecosystem_metrics (sqrt : ℚ → ℚ) (results : List (ℚ × ℚ)) :
    Except String Metrics :=
  let prey_pop := results.map Prod.fst
  let predator_pop := results.map Prod.snd
  if results.isEmpty then
    Except.error "zero-size array to reduction operation minimum which has no identity"
  else
    let prey_mean := npMean prey_pop
    let prey_std := npStd sqrt prey_pop
    let predator_mean := npMean predator_pop
    let predator_std := npStd sqrt predator_pop
    let prey_cv := if 0 < prey_mean then prey_std / prey_mean else 0
    let predator_cv := if 0 < predator_mean then predator_std / predator_mean else 0
    let ecosystem_stability : WithTop ℚ :=
      if 0 < prey_cv + predator_cv then ((1 / (prey_cv + predator_cv) : ℚ) : WithTop ℚ)
      else ⊤
    let prey_peaks := peakIndices prey_pop
    let predator_peaks := peakIndices predator_pop
    let prey_period := if 2 ≤ prey_peaks.length then avgPeakInterval prey_peaks else 0
    let predator_period :=
      if 2 ≤ predator_peaks.length then avgPeakInterval predator_peaks else 0
    let phase_diff : ℕ :=
      if prey_peaks ≠ [] ∧ predator_peaks ≠ [] then
        match prey_peaks.head? with
        | some prey_peak_idx =>
          match predator_peaks.find? (fun q => decide (prey_peak_idx < q)) with
          | some next_idx => next_idx - prey_peak_idx
          | none => 0
        | none => 0
      else 0
    Except.ok
      { prey_mean := prey_mean, prey_std := prey_std,
        prey_min := npMin prey_pop, prey_max := npMax prey_pop,
        prey_cv := prey_cv,
        predator_mean := predator_mean, predator_std := predator_std,
        predator_min := npMin predator_pop, predator_max := npMax predator_pop,
        predator_cv := predator_cv,
        ecosystem_stability := ecosystem_stability,
        final_prey := prey_pop.getLastD 0,
        final_predator := predator_pop.getLastD 0,
        prey_period := prey_period, predator_period := predator_period,
        phase_difference := phase_diff,
        prey_peaks_count := prey_peaks.length,
        predator_peaks_count := predator_peaks.length }

/-! ## Characterization of the event transforms

Every branch of apply_environmental_change multiplies each rate by a factor
determined by the event alone and, for Disease, adds an event-determined
term to the mortality key. The records below package those factors so that
composition properties become componentwise algebra. -/

/-- Componentwise effect of one event application: multiplicative factors
for the four rates, and whether and by how much the mortality key is
written. -/
structure EvEffect where
  fa : ℚ
  fb : ℚ
  fg : ℚ
  fd : ℚ
  dmTouch : Bool
  dmAdd : ℚ
deriving Repr, DecidableEq

/-- Application of a packaged effect to a parameter dictionary. -/
def applyEffect (e : EvEffect) (p : LVParams) : LVParams :=
  { alpha := p.alpha * e.fa, beta := p.beta * e.fb,
    gamma := p.gamma * e.fg, delta := p.delta * e.fd,
    direct_mortality :=
      if e.dmTouch then some (p.direct_mortality.getD 0 + e.dmAdd)
      else p.direct_mortality }

/-- Neutral effect: all factors 1, mortality untouched. -/
def idEffect : EvEffect := ⟨1, 1, 1, 1, false, 0⟩

/-- Factors of apply_environmental_change as a function of the event data
only, following the same branch structure as the source. -/
def envEffect (env_type : String) (intensity : ℚ)
    (affected_species : String) : EvEffect :=
  let scale : ℚ := intensity / 100
  if env_type = "Temperature Increase" then
    let e := idEffect
    let e :=
      if affected_species = "prey" ∨ affected_species = "both" then
        { e with fa := 1 - scale * 0.3, fb := 1 + scale * 0.2 }
      else e
    if affected_species = "predator" ∨ affected_species = "both" then
      { e with fg := 1 + scale * 0.4, fd := 1 - scale * 0.1 }
    else e
  else if env_type = "Habitat Loss" then
    let e := idEffect
    let e :=
      if affected_species = "prey" ∨ affected_species = "both" then
        { e with fa := 1 - scale * 0.5, fb := 1 + scale * 0.3 }
      else e
    if affected_species = "predator" ∨ affected_species = "both" then
      { e with fg := 1 + scale * 0.2,
               fd := if scale < 0.5 then 1 + scale * 0.2
                     else 1 - (scale - 0.5) * 0.4 }
    else e
  else if env_type = "Resource Depletion" then
    let e := idEffect
    let e :=
      if affected_species = "prey" ∨ affected_species = "both" then
        { e with fa := 1 - scale * 0.7 }
      else e
    if affected_species = "predator" ∨ affected_species = "both" then
      { e with fd := 1 - scale * 0.3 }
    else e
  else if env_type = "Disease" then
    if affected_species = "prey" then
      { idEffect with fa := 1 - scale * 0.4, dmTouch := true,
                      dmAdd := scale * 0.05 }
    else if affected_species = "predator" then
      { idEffect with fg := 1 + scale * 0.6 }
    else if affected_species = "both" then
      { idEffect with fa := 1 - scale * 0.3, fg := 1 + scale * 0.4,
                      dmTouch := true, dmAdd := scale * 0.03 }
    else idEffect
  else idEffect

/-- Numerical agreement of two parameter dictionaries: equal rates and
equal direct mortality with an absent key read as 0, which is exactly how
the derivative evaluator consumes the dictionary. -/
def paramsNumEq (p q : LVParams) : Prop :=
  p.alpha = q.alpha ∧ p.beta = q.beta ∧ p.gamma = q.gamma ∧ p.delta = q.delta ∧
    p.direct_mortality.getD 0 = q.direct_mortality.getD 0

/-- Solver stub that reports an integration failure after two samples,
with the trajectory reached up to the failure point, as scipy does when a
run does not converge (success false, partial t and y). -/
def failedSolve : Solver := fun _ _ _ _ =>
  { t := [0, 5], yT := [[100, 50], [90, 40]], success := false }

/-- Solver stub that succeeds, reporting the initial state at every
requested sample time. -/
def demoSolve : Solver := fun _ y0 _ t_eval =>
  { t := t_eval, yT := t_eval.map (fun _ => y0), success := true }

/-- Metrics record produced on the constant two-row trajectory used as a
concrete witness input. -/
def constMetrics : Metrics :=
  { prey_mean := 1, prey_std := 0, prey_min := 1, prey_max := 1, prey_cv := 0,
    predator_mean := 1, predator_std := 0, predator_min := 1, predator_max := 1,
    predator_cv := 0, ecosystem_stability := ⊤, final_prey := 1,
    final_predator := 1, prey_period := 0, predator_period := 0,
    phase_difference := 0, prey_peaks_count := 0, predator_peaks_count := 0 }

set_option maxHeartbeats 1000000 in
theorem apply_env_change_eq_effect (p : LVParams) (ty : String) (i : ℚ)
    (aff : String) :
    apply_environmental_change p ty i aff = applyEffect (envEffect ty i aff) p := by
  simp only [apply_environmental_change, envEffect, applyEffect, idEffect]
  split_ifs <;> simp_all [LVParams.mk.injEq]

theorem applyEffect_comm (e₁ e₂ : EvEffect) (p : LVParams) :
    applyEffect e₁ (applyEffect e₂ p) = applyEffect e₂ (applyEffect e₁ p) := by
  unfold applyEffect
  cases h₁ : e₁.dmTouch <;> cases h₂ : e₂.dmTouch <;>
    simp [h₁, h₂, LVParams.mk.injEq, mul_right_comm, add_right_comm]

/-- Swapping two adjacent events anywhere in the list never changes the
composed parameter set, for every time, base and pair of events: every
event transform multiplies each rate by a factor determined by the event
alone and adds an event-determined mortality term, so the transforms
commute. Since adjacent transpositions generate all permutations, no
reordering of the event list can change the composed result. -/
theorem env_fold_swap_invariant :
    ∀ (t : ℚ) (base : LVParams) (pre post : List EnvChange)
      (c₁ c₂ : EnvChange),
      lv_effective_params t base (pre ++ c₁ :: c₂ :: post) =
        lv_effective_params t base (pre ++ c₂ :: c₁ :: post) := by
  intro t base pre post c₁ c₂
  unfold lv_effective_params
  rw [List.foldl_append, List.foldl_append]
  simp only [List.foldl_cons]
  congr 1
  by_cases h₁ : c₁.start_time ≤ t <;> by_cases h₂ : c₂.start_time ≤ t <;>
    simp only [h₁, h₂, if_pos, if_neg, if_true, if_false, ite_true, ite_false,
      apply_env_change_eq_effect, applyEffect_comm]

/-- C3 (amended): the effective parameters at time t are a strict left fold
over the event list: the empty list yields the base parameters, and
appending an event applies its type- and species-specific transform, at its
ramped effective intensity, to the parameter set already modified by all
earlier events in the list — not to the original base. Contrary to the
reordering clause of the claim, swapping any two adjacent events never
changes the composed result (third conjunct), so no reordering can. -/
theorem env_fold_is_strict_left_fold :
    (∀ (t : ℚ) (base : LVParams), lv_effective_params t base [] = base) ∧
    (∀ (t : ℚ) (base : LVParams) (l : List EnvChange) (c : EnvChange),
      lv_effective_params t base (l ++ [c]) =
        if c.start_time ≤ t then
          apply_environmental_change (lv_effective_params t base l) c.etype
            (effective_intensity c t) c.affected_species
        else lv_effective_params t base l) ∧
    (∀ (t : ℚ) (base : LVParams) (pre post : List EnvChange)
        (c₁ c₂ : EnvChange),
      lv_effective_params t base (pre ++ c₁ :: c₂ :: post) =
        lv_effective_params t base (pre ++ c₂ :: c₁ :: post)) := by
  refine ⟨?_, ?_, env_fold_swap_invariant⟩
  · intro t base
    rfl
  · intro t base l c
    unfold lv_effective_params
    rw [List.foldl_append]
    simp only [List.foldl_cons, List.foldl_nil]

/-- C8: an event whose intensity is 0 has effective intensity 0 at every
time, and composing it — at the transform level or through the event fold,
for any duration and start time — yields a parameter set numerically equal
to the unperturbed base (the Disease branches may materialize the optional
mortality key with value 0, which is numerically neutral). -/
theorem zero_intensity_event_neutral :
    (∀ (base : LVParams) (ty aff : String),
      paramsNumEq (apply_environmental_change base ty 0 aff) base) ∧
    (∀ (base : LVParams) (ty aff : String) (s D t : ℚ),
      paramsNumEq
        (lv_effective_params t base
          [{ etype := ty, start_time := s, intensity := 0, duration := D,
             affected_species := aff }])
        base) := by
  have h1 : ∀ (base : LVParams) (ty aff : String),
      paramsNumEq (apply_environmental_change base ty 0 aff) base := by
    intro base ty aff
    rw [apply_env_change_eq_effect]
    simp only [envEffect, applyEffect, idEffect, paramsNumEq]
    split_ifs <;> simp_all <;> (exfalso; norm_num at *)
  refine ⟨h1, ?_⟩
  intro base ty aff s D t
  unfold lv_effective_params
  simp only [List.foldl_cons, List.foldl_nil]
  split_ifs with h
  · have heff : effective_intensity
        { etype := ty, start_time := s, intensity := 0, duration := D,
          affected_species := aff } t = 0 := by
      unfold effective_intensity
      split_ifs <;> ring
    rw [heff]
    exact h1 base ty aff
  · exact ⟨rfl, rfl, rfl, rfl, rfl⟩

/-- C4 (amended): for an active event (start_time ≤ t) with positive
duration D the effective intensity equals intensity times the ramp
clamp((t - start_time) / D, 0, 1); it is 0 at t = start_time and equals the
full intensity for every t at least start_time + D; it is monotone
nondecreasing in t when the intensity is nonnegative (for negative
intensity — an ameliorating change, as in the habitat restoration preset —
the effective intensity decreases toward the full negative intensity
instead); for an event with duration 0 the full intensity applies from
start_time on. -/
theorem effective_intensity_ramp :
    (∀ (c : EnvChange) (t : ℚ), 0 < c.duration → c.start_time ≤ t →
      effective_intensity c t =
        c.intensity * max 0 (min 1 ((t - c.start_time) / c.duration))) ∧
    (∀ (c : EnvChange), 0 < c.duration →
      effective_intensity c c.start_time = 0) ∧
    (∀ (c : EnvChange) (t₁ t₂ : ℚ), 0 ≤ c.intensity → 0 < c.duration →
      c.start_time ≤ t₁ → t₁ ≤ t₂ →
      effective_intensity c t₁ ≤ effective_intensity c t₂) ∧
    (∀ (c : EnvChange) (t : ℚ), 0 < c.duration →
      c.start_time + c.duration ≤ t → effective_intensity c t = c.intensity) ∧
    (∀ (c : EnvChange) (t : ℚ), c.duration = 0 → c.start_time ≤ t →
      effective_intensity c t = c.intensity) := by
  refine ⟨?_, ?_, ?_, ?_, ?_⟩
  · intro c t hD ht
    unfold effective_intensity
    rw [if_pos hD]
    have h0 : (0 : ℚ) ≤ min 1 ((t - c.start_time) / c.duration) :=
      le_min (by norm_num) (div_nonneg (by linarith) hD.le)
    rw [max_eq_right h0]
  · intro c hD
    unfold effective_intensity
    rw [if_pos hD]
    simp
  · intro c t₁ t₂ hI hD h₁ h₂
    unfold effective_intensity
    rw [if_pos hD, if_pos hD]
    refine mul_le_mul_of_nonneg_left ?_ hI
    exact min_le_min (le_refl 1) (by
      rw [div_le_div_iff_of_pos_right hD]
      linarith)
  · intro c t hD ht
    unfold effective_intensity
    rw [if_pos hD]
    have h1 : (1 : ℚ) ≤ (t - c.start_time) / c.duration := by
      rw [le_div_iff₀ hD]
      linarith
    rw [min_eq_left h1, mul_one]
  · intro c t hD _
    unfold effective_intensity
    rw [if_neg (by rw [hD]; exact lt_irrefl 0)]

/-- C4 counterexample: the habitat restoration preset of
preset_scenarios.py carries intensity -50; for an event with that
intensity, start_time 0 and duration 10, the effective intensity strictly
decreases from time 1 to time 2, so the effective intensity is not
monotonically increasing in t for every event with positive duration. -/
theorem effective_intensity_not_monotone_for_negative :
    (0 : ℚ) ≤ 1 ∧ (1 : ℚ) ≤ 2 ∧
      (EnvChange.mk "Habitat Loss" 0 (-50) 10 "both").start_time ≤ 1 ∧
      0 < (EnvChange.mk "Habitat Loss" 0 (-50) 10 "both").duration ∧
      ¬ effective_intensity (EnvChange.mk "Habitat Loss" 0 (-50) 10 "both") 1 ≤
          effective_intensity (EnvChange.mk "Habitat Loss" 0 (-50) 10 "both") 2 := by
  refine ⟨by norm_num, by norm_num, by norm_num, by norm_num, ?_⟩
  simp only [effective_intensity]
  norm_num [min_def]

/-- C4 witness: concrete instances of the ramp theorem for an event of
intensity 40 starting at time 5 with duration 10, and an instantaneous
event of duration 0. -/
theorem effective_intensity_ramp_witness :
    effective_intensity (EnvChange.mk "Temperature Increase" 5 40 10 "both") 5 = 0 ∧
    effective_intensity (EnvChange.mk "Temperature Increase" 5 40 10 "both") 7 ≤
      effective_intensity (EnvChange.mk "Temperature Increase" 5 40 10 "both") 9 ∧
    effective_intensity (EnvChange.mk "Temperature Increase" 5 40 10 "both") 20 = 40 ∧
    effective_intensity (EnvChange.mk "Disease" 5 30 0 "prey") 6 = 30 :=
  ⟨effective_intensity_ramp.2.1 _ (by norm_num),
   effective_intensity_ramp.2.2.1 _ 7 9 (by norm_num) (by norm_num)
     (by norm_num) (by norm_num),
   effective_intensity_ramp.2.2.2.1 _ 20 (by norm_num) (by norm_num),
   effective_intensity_ramp.2.2.2.2 _ 6 (by norm_num) (by norm_num)⟩

/-- C1 (amended): none of the three drivers inspects the solver outcome:
each returns the sample times and transposed values of the solver result
unconditionally (after run_multi_species_simulation passes its shape
validation), so on solver failure the partial trajectory is returned
rather than an IntegrationError being raised — no such error exists in the
code. -/
theorem drivers_return_solver_output_unconditionally :
    (∀ (solve : Solver) (a b g d p q T : ℚ),
      run_lotka_volterra solve a b g d p q T =
        Except.ok (solve (fun t y => lotka_volterra_system t y ⟨a, b, g, d, none⟩)
            [p, q] (0, T) (linspace 0 T 1000)).traj) ∧
    (∀ (solve : Solver) (a b g d p q T : ℚ) (ty : String) (s i : ℚ)
        (choice : String),
      run_habitat_change_simulation solve a b g d p q T ty s i choice =
        Except.ok (solve
            (fun t' y => lotka_volterra_with_env_change t' y ⟨a, b, g, d, none⟩
              [⟨ty, s, i, 10, if ty = "Disease" then choice else "both"⟩])
            [p, q] (0, T) (linspace 0 T 1000)).traj) ∧
    (∀ (solve : Solver) (names : List String) (gr : List ℚ)
        (im : List (List ℚ)) (ip : List ℚ) (cc : Option (List ℚ)) (T : ℚ),
      gr.length = names.length →
      im.length = names.length →
      (∀ row ∈ im, row.length = names.length) →
      ip.length = names.length →
      (∀ l, cc = some l → l.length = names.length) →
      run_multi_species_simulation solve names gr im ip cc T =
        Except.ok (solve
            (fun t' y => multi_species_system t' y
              (msOdeParams gr im (cc.getD (List.replicate names.length 1000))))
            ip (0, T) (linspace 0 T 1000)).traj) := by
  refine ⟨fun solve a b g d p q T => rfl, fun solve a b g d p q T ty s i c => rfl, ?_⟩
  intro solve names gr im ip cc T h1 h2 h3 h4 h5
  have hno : ¬(im.length ≠ names.length ∨
      (im.any fun row => decide (row.length ≠ names.length)) = true) := by
    rw [not_or]
    refine ⟨by simp [h2], ?_⟩
    simp only [List.any_eq_true, decide_eq_true_eq]
    intro hex
    obtain ⟨row, hrow, hne⟩ := hex
    exact hne (h3 row hrow)
  cases cc with
  | none =>
    simp only [run_multi_species_simulation]
    rw [if_neg (by simp [h1]), if_neg hno, if_neg (by simp [h4])]
    rfl
  | some l =>
    simp only [run_multi_species_simulation]
    rw [if_neg (by simp [h1]), if_neg hno, if_neg (by simp [h4]),
      if_neg (by simp [h5 l rfl])]
    rfl

/-- C1 counterexample: with a solver reporting failure (success false) and
a partial two-sample trajectory, run_lotka_volterra returns that partial
trajectory as a successful result instead of raising an IntegrationError
and returning nothing. -/
theorem run_lotka_volterra_forwards_failed_solve :
    (failedSolve
        (fun t y => lotka_volterra_system t y ⟨1, 0.1, 0.3, 0.1, none⟩)
        [100, 50] (0, 100) (linspace 0 100 1000)).success = false ∧
    run_lotka_volterra failedSolve 1 0.1 0.3 0.1 100 50 100 =
      Except.ok ([0, 5], [[100, 50], [90, 40]]) :=
  ⟨rfl, rfl⟩

/-- C1 witness: the multi-species driver conjunct applied at a concrete
valid two-species configuration with default capacities. -/
theorem drivers_return_solver_output_witness :
    run_multi_species_simulation demoSolve ["Plants", "Herbivores"]
        [0.5, -0.2] [[0, -0.01], [0.02, 0]] [500, 100] none 100 =
      Except.ok (demoSolve
          (fun t' y => multi_species_system t' y
            (msOdeParams [0.5, -0.2] [[0, -0.01], [0.02, 0]]
              ((none : Option (List ℚ)).getD
                (List.replicate (["Plants", "Herbivores"] : List String).length
                  1000))))
          [500, 100] (0, 100) (linspace 0 100 1000)).traj :=
  drivers_return_solver_output_unconditionally.2.2 demoSolve
    ["Plants", "Herbivores"] [0.5, -0.2] [[0, -0.01], [0.02, 0]] [500, 100]
    none 100 (by decide) (by decide) (by decide) (by decide)
    (fun l h => Option.noConfusion h)

theorem multi_run_ok_shape (solve : Solver) (names : List String)
    (gr : List ℚ) (im : List (List ℚ)) (ip : List ℚ)
    (cc : Option (List ℚ)) (T : ℚ)
    (hok : (run_multi_species_simulation solve names gr im ip cc T).isOk = true) :
    gr.length = names.length ∧ im.length = names.length ∧
      (∀ row ∈ im, row.length = names.length) ∧ ip.length = names.length ∧
      (∀ l, cc = some l → l.length = names.length) := by
  cases cc with
  | none =>
    simp only [run_multi_species_simulation] at hok
    split_ifs at hok with hA hB hC
    · exact absurd hok (by decide)
    · exact absurd hok (by decide)
    · exact absurd hok (by decide)
    · rw [not_or] at hB
      simp only [List.any_eq_true, decide_eq_true_eq] at hB
      push_neg at hA hB hC
      exact ⟨hA, hB.1, hB.2, hC, fun l h => Option.noConfusion h⟩
  | some l =>
    simp only [run_multi_species_simulation] at hok
    split_ifs at hok with hA hB hC hD
    · exact absurd hok (by decide)
    · exact absurd hok (by decide)
    · exact absurd hok (by decide)
    · exact absurd hok (by decide)
    · rw [not_or] at hB
      simp only [List.any_eq_true, decide_eq_true_eq] at hB
      push_neg at hA hB hC hD
      exact ⟨hA, hB.1, hB.2, hC, fun l' h => (Option.some.inj h) ▸ hD⟩

/-- C9: whenever growth_rates, initial_populations or a supplied
carrying_capacities list differs in length from species_names, or the
interaction matrix is not square of that dimension,
run_multi_species_simulation yields a configuration error for every solver
whatsoever — the rejection happens in the validation prologue, before any
integration is attempted. -/
theorem multi_species_validation_rejects (names : List String)
    (gr : List ℚ) (im : List (List ℚ)) (ip : List ℚ)
    (cc : Option (List ℚ)) (T : ℚ)
    (h : gr.length ≠ names.length ∨ im.length ≠ names.length ∨
      (∃ row ∈ im, row.length ≠ names.length) ∨ ip.length ≠ names.length ∨
      (∃ l, cc = some l ∧ l.length ≠ names.length)) :
    ∀ solve : Solver,
      (run_multi_species_simulation solve names gr im ip cc T).isOk = false := by
  intro solve
  by_contra hok
  rw [Bool.not_eq_false] at hok
  obtain ⟨h1, h2, h3, h4, h5⟩ := multi_run_ok_shape solve names gr im ip cc T hok
  rcases h with h | h | h | h | h
  · exact h h1
  · exact h h2
  · obtain ⟨row, hrow, hne⟩ := h
    exact hne (h3 row hrow)
  · exact h h4
  · obtain ⟨l, rfl, hne⟩ := h
    exact hne (h5 l rfl)

/-- C9 witness: a two-species name list with a single growth rate is
rejected with an error by the concrete solver stub. -/
theorem multi_species_validation_rejects_witness :
    (run_multi_species_simulation demoSolve ["Plants", "Herbivores"] [0.5]
        [[0, 0], [0, 0]] [500, 100] none 100).isOk = false :=
  multi_species_validation_rejects ["Plants", "Herbivores"] [0.5]
    [[0, 0], [0, 0]] [500, 100] none 100 (Or.inl (by decide)) demoSolve

/-- C10: omitting the carrying capacities makes
run_multi_species_simulation behave exactly as if the finite default
capacity 1000 had been supplied for every species: the run is identical,
for every solver and configuration, to the run with an explicit list of
1000 entries, so each species gets a logistic ceiling of 1000 rather than
unconstrained growth. -/
theorem default_carrying_capacity_is_1000 :
    ∀ (solve : Solver) (names : List String) (gr : List ℚ)
      (im : List (List ℚ)) (ip : List ℚ) (T : ℚ),
      run_multi_species_simulation solve names gr im ip none T =
        run_multi_species_simulation solve names gr im ip
          (some (List.replicate names.length (1000 : ℚ))) T := by
  intro solve names gr im ip T
  simp only [run_multi_species_simulation, List.length_replicate]
  split_ifs <;> simp_all

theorem foldl_guard_add (i : ℕ) (f : ℕ → ℚ) :
    ∀ (l : List ℕ) (acc : ℚ),
      l.foldl (fun a j => if i ≠ j then a + f j else a) acc =
        acc + ((l.filter (fun j => decide (j ≠ i))).map f).sum := by
  intro l
  induction l with
  | nil => intro acc; simp
  | cons j rest ih =>
    intro acc
    rw [List.foldl_cons, List.filter_cons]
    by_cases h : i = j
    · subst h
      rw [if_neg (fun hne => hne rfl), if_neg (by simp), ih]
    · rw [if_pos h, if_pos (decide_eq_true (Ne.symm h)), List.map_cons,
        List.sum_cons, ih]
      ring

/-- C5: the N-species evaluator computes, for each species index i below
the state length, the logistic growth term plus the interaction sum over
all indices j distinct from i (the diagonal is skipped), with the
interaction part factoring as the own population times the weighted sum of
the other populations; and with an all-zero interaction matrix the
derivative reduces to the pure logistic term, which depends only on the
own population, growth rate and capacity. -/
theorem multi_species_derivative_formula (t : ℚ) (y : List ℚ) (p : MSParams)
    (i : ℕ) (hi : i < y.length) :
    (multi_species_system t y p).getD i 0 =
      p.growth_rates.getD i 0 * y.getD i 0 *
          (1 - capDiv (y.getD i 0)
            ((p.carrying_capacities.getD (List.replicate y.length ⊤)).getD i ⊤)) +
        y.getD i 0 *
          (((List.range y.length).filter (fun j => decide (j ≠ i))).map
            (fun j => (p.interaction_matrix.getD i []).getD j 0 * y.getD j 0)).sum ∧
    ((∀ a b, (p.interaction_matrix.getD a []).getD b 0 = 0) →
      (multi_species_system t y p).getD i 0 =
        p.growth_rates.getD i 0 * y.getD i 0 *
          (1 - capDiv (y.getD i 0)
            ((p.carrying_capacities.getD (List.replicate y.length ⊤)).getD i ⊤))) := by
  have hmain : (multi_species_system t y p).getD i 0 =
      p.growth_rates.getD i 0 * y.getD i 0 *
          (1 - capDiv (y.getD i 0)
            ((p.carrying_capacities.getD (List.replicate y.length ⊤)).getD i ⊤)) +
        y.getD i 0 *
          (((List.range y.length).filter (fun j => decide (j ≠ i))).map
            (fun j => (p.interaction_matrix.getD i []).getD j 0 * y.getD j 0)).sum := by
    unfold multi_species_system
    rw [List.getD_eq_getElem?_getD, List.getElem?_map, List.getElem?_range hi]
    simp only [Option.map_some', Option.getD_some]
    rw [foldl_guard_add]
    congr 1
    generalize (List.range y.length).filter (fun j => decide (j ≠ i)) = L
    induction L with
    | nil => simp
    | cons a as ih =>
      simp only [List.map_cons, List.sum_cons, ih]
      ring
  refine ⟨hmain, fun hA => ?_⟩
  rw [hmain]
  have hz : (((List.range y.length).filter (fun j => decide (j ≠ i))).map
      (fun j => (p.interaction_matrix.getD i []).getD j 0 * y.getD j 0)).sum = 0 := by
    apply List.sum_eq_zero
    intro x hx
    obtain ⟨a, _, rfl⟩ := List.mem_map.mp hx
    rw [hA i a, zero_mul]
  rw [hz, mul_zero, add_zero]

/-- C5 witness: the formula evaluated at a concrete two-species state with
one finite and one infinite capacity and a nonzero interaction matrix. -/
theorem multi_species_derivative_formula_witness :
    (multi_species_system 0 [5, 7]
        ⟨[1, 2], [[0, 3], [4, 0]],
         some ([(2 : ℚ), ⊤] : List (WithTop ℚ))⟩).getD 0 0 =
      ([1, 2] : List ℚ).getD 0 0 * ([5, 7] : List ℚ).getD 0 0 *
          (1 - capDiv (([5, 7] : List ℚ).getD 0 0)
            (((some ([(2 : ℚ), ⊤] : List (WithTop ℚ))).getD
              (List.replicate (([5, 7] : List ℚ).length) ⊤)).getD 0 ⊤)) +
        ([5, 7] : List ℚ).getD 0 0 *
          (((List.range (([5, 7] : List ℚ).length)).filter
              (fun j => decide (j ≠ 0))).map
            (fun j => (([[0, 3], [4, 0]] : List (List ℚ)).getD 0 []).getD j 0 *
              ([5, 7] : List ℚ).getD j 0)).sum :=
  (multi_species_derivative_formula 0 [5, 7]
    ⟨[1, 2], [[0, 3], [4, 0]],
     some ([(2 : ℚ), ⊤] : List (WithTop ℚ))⟩ 0 (by decide)).1

/-- C7: an index is reported as a peak exactly when it is interior
(1 ≤ i ≤ len − 2) and its value strictly exceeds both neighbours; in
particular boundary indices can never satisfy the membership bound, and
the synthetic series [0,1,0,1,0,1,0] yields exactly the peaks 1, 3, 5. -/
theorem peak_detection_characterization :
    (∀ (xs : List ℚ) (i : ℕ),
      i ∈ peakIndices xs ↔
        1 ≤ i ∧ i ≤ xs.length - 2 ∧
          xs.getD (i - 1) 0 < xs.getD i 0 ∧ xs.getD (i + 1) 0 < xs.getD i 0) ∧
    peakIndices [0, 1, 0, 1, 0, 1, 0] = [1, 3, 5] := by
  constructor
  · intro xs i
    unfold peakIndices
    rw [List.mem_filter, List.mem_range'_1]
    simp only [decide_eq_true_eq]
    constructor
    · rintro ⟨⟨h1, h2⟩, h3, h4⟩
      exact ⟨h1, by omega, h3, h4⟩
    · rintro ⟨h1, h2, h3, h4⟩
      exact ⟨⟨h1, by omega⟩, h3, h4⟩
  · decide

theorem npVariance_nonneg (xs : List ℚ) : 0 ≤ npVariance xs := by
  unfold npVariance npMean
  apply div_nonneg
  · apply List.sum_nonneg
    intro x hx
    obtain ⟨a, _, rfl⟩ := List.mem_map.mp hx
    positivity
  · positivity

/-- C2 (amended): calculate_ecosystem_metrics fails only on the empty
trajectory, where the first numpy reduction without an identity raises;
every trajectory with at least one row — in particular a length-1
trajectory — is accepted and produces a full metrics record. -/
theorem metrics_degenerate_input :
    (∀ (sqrt : ℚ → ℚ),
      calculate_ecosystem_metrics sqrt [] =
        Except.error
          "zero-size array to reduction operation minimum which has no identity") ∧
    (∀ (sqrt : ℚ → ℚ) (r : ℚ × ℚ) (rs : List (ℚ × ℚ)),
      (calculate_ecosystem_metrics sqrt (r :: rs)).isOk = true) := by
  constructor
  · intro s
    rfl
  · intro s r rs
    simp only [calculate_ecosystem_metrics, List.isEmpty_cons, ite_false,
      Bool.false_eq_true, if_false]
    rfl

/-- C2 counterexample: on the length-1 trajectory [(5, 3)] the function
returns a complete metrics record instead of raising any error. -/
theorem metrics_singleton_returns_record :
    calculate_ecosystem_metrics id [(5, 3)] =
      Except.ok
        { prey_mean := 5, prey_std := 0, prey_min := 5, prey_max := 5,
          prey_cv := 0, predator_mean := 3, predator_std := 0,
          predator_min := 3, predator_max := 3, predator_cv := 0,
          ecosystem_stability := ⊤, final_prey := 5, final_predator := 3,
          prey_period := 0, predator_period := 0, phase_difference := 0,
          prey_peaks_count := 0, predator_peaks_count := 0 } := by
  simp only [calculate_ecosystem_metrics, npMean, npStd, npVariance, npMin,
    npMax, peakIndices, avgPeakInterval]
  norm_num [List.range', Metrics.mk.injEq]

/-- C6: in every metrics record the coefficient of variation of each
species equals its standard deviation divided by its mean when the mean is
positive and 0 otherwise; the stability score equals the reciprocal of the
CV sum when that sum is positive; and the stability score is the
(unbounded) infinity exactly when both CVs are 0 — given that the square
root function is nonnegative on nonnegative inputs, as the float sqrt is. -/
theorem metrics_cv_and_stability (sqrt : ℚ → ℚ)
    (hsqrt : ∀ q, 0 ≤ q → 0 ≤ sqrt q)
    (results : List (ℚ × ℚ)) (m : Metrics)
    (hm : calculate_ecosystem_metrics sqrt results = Except.ok m) :
    (m.prey_cv = if 0 < m.prey_mean then m.prey_std / m.prey_mean else 0) ∧
    (m.predator_cv =
      if 0 < m.predator_mean then m.predator_std / m.predator_mean else 0) ∧
    (0 < m.prey_cv + m.predator_cv →
      m.ecosystem_stability =
        ((1 / (m.prey_cv + m.predator_cv) : ℚ) : WithTop ℚ)) ∧
    (m.ecosystem_stability = ⊤ ↔ m.prey_cv = 0 ∧ m.predator_cv = 0) := by
  have hcv : ∀ (xs : List ℚ),
      0 ≤ if 0 < npMean xs then npStd sqrt xs / npMean xs else 0 := by
    intro xs
    split_ifs with h
    · exact div_nonneg (hsqrt _ (npVariance_nonneg xs)) h.le
    · exact le_refl 0
  unfold calculate_ecosystem_metrics at hm
  split_ifs at hm with hemp
  all_goals first
    | exact Except.noConfusion hm
    | (have hrec := Except.ok.inj hm
       rw [← hrec]
       refine ⟨rfl, rfl, ?_, ?_⟩
       · intro hpos
         dsimp only at hpos ⊢
         rw [if_pos hpos]
       · have h1 := hcv (results.map Prod.fst)
         have h2 := hcv (results.map Prod.snd)
         dsimp only
         by_cases hpos : 0 <
             (if 0 < npMean (results.map Prod.fst) then
               npStd sqrt (results.map Prod.fst) / npMean (results.map Prod.fst)
             else 0) +
             (if 0 < npMean (results.map Prod.snd) then
               npStd sqrt (results.map Prod.snd) / npMean (results.map Prod.snd)
             else 0)
         · rw [if_pos hpos]
           constructor
           · intro htop
             exact absurd htop WithTop.coe_ne_top
           · rintro ⟨hz1, hz2⟩
             rw [hz1, hz2] at hpos
             norm_num at hpos
         · rw [if_neg hpos]
           constructor
           · intro _
             exact ⟨by linarith, by linarith⟩
           · intro _
             rfl)

/-- C6 witness: the theorem applied to the metrics of the constant
two-row trajectory [(1,1),(1,1)], with the identity as the square root
(which is nonnegative on nonnegative inputs). -/
theorem metrics_cv_and_stability_witness :
    (constMetrics.prey_cv =
      if 0 < constMetrics.prey_mean then
        constMetrics.prey_std / constMetrics.prey_mean
      else 0) ∧
    (constMetrics.predator_cv =
      if 0 < constMetrics.predator_mean then
        constMetrics.predator_std / constMetrics.predator_mean
      else 0) ∧
    (0 < constMetrics.prey_cv + constMetrics.predator_cv →
      constMetrics.ecosystem_stability =
        ((1 / (constMetrics.prey_cv + constMetrics.predator_cv) : ℚ) :
          WithTop ℚ)) ∧
    (constMetrics.ecosystem_stability = ⊤ ↔
      constMetrics.prey_cv = 0 ∧ constMetrics.predator_cv = 0) :=
  metrics_cv_and_stability id (fun _ h => h) [(1, 1), (1, 1)] constMetrics
    (by
      simp only [calculate_ecosystem_metrics, npMean, npStd, npVariance, npMin,
        npMax, peakIndices, avgPeakInterval, constMetrics]
      norm_num [List.range', Metrics.mk.injEq])

/-- C7 witness: the characterization instantiated at the synthetic series
and the interior index 3. -/
theorem peak_detection_characterization_witness :
    3 ∈ peakIndices [0, 1, 0, 1, 0, 1, 0] :=
  (peak_detection_characterization.1 [0, 1, 0, 1, 0, 1, 0] 3).mpr (by decide)

/-- C3 counterexample to the reordering clause on a concrete input: a
temperature event and a habitat-loss event, both active and both actually
perturbing the rates at time 30, compose to exactly the same parameter set
in either order. -/
theorem env_fold_concrete_reorder_no_change :
    lv_effective_params 30 ⟨1, 2, 3, 4, none⟩
        [⟨"Temperature Increase", 0, 50, 10, "both"⟩,
         ⟨"Habitat Loss", 5, 80, 10, "prey"⟩] =
      lv_effective_params 30 ⟨1, 2, 3, 4, none⟩
        [⟨"Habitat Loss", 5, 80, 10, "prey"⟩,
         ⟨"Temperature Increase", 0, 50, 10, "both"⟩] ∧
    lv_effective_params 30 ⟨1, 2, 3, 4, none⟩
        [⟨"Temperature Increase", 0, 50, 10, "both"⟩,
         ⟨"Habitat Loss", 5, 80, 10, "prey"⟩] ≠ ⟨1, 2, 3, 4, none⟩ := by
  constructor
  · exact env_fold_swap_invariant 30 ⟨1, 2, 3, 4, none⟩ [] []
      ⟨"Temperature Increase", 0, 50, 10, "both"⟩
      ⟨"Habitat Loss", 5, 80, 10, "prey"⟩
  · simp only [lv_effective_params, List.foldl_cons, List.foldl_nil,
      effective_intensity, apply_environmental_change]
    norm_num [min_def, LVParams.mk.injEq]
    split_ifs <;> norm_num [LVParams.mk.injEq]
